import Mathlib

set_option maxRecDepth 100000

/-!
Shallow embedding of the report-generation core of the `willy` repository
(`src/app.py`, `src/sheet_utils.py`): Python-string utilities, the language
check, the length budgeter, the output validator, the per-item retry loop,
the batch driver, and the record-store lookup.  Integer-valued Python
expressions such as `int(w * 0.2)` are embedded as exact rational floors
(`w / 5` in natural division); for every weight used by the source
(0.2, 0.15, 0.25, 0.03) the double-precision product `w * weight` rounds to
the exact value for all budgets below 10^15, so the floor embedding agrees
with CPython on the entire realistic input range.
-/

/-- Character class of Python `str.isspace` / regex `\s` for `str` patterns:
ASCII whitespace, the information separators, and the Unicode space
characters. -/
def isPySpace (c : Char) : Bool :=
  let n := c.toNat
  (9 ≤ n && n ≤ 13) || (28 ≤ n && n ≤ 32) || n == 0x85 || n == 0xA0 ||
    n == 0x1680 || (0x2000 ≤ n && n ≤ 0x200A) || n == 0x2028 || n == 0x2029 ||
    n == 0x202F || n == 0x205F || n == 0x3000

/-- Python `str.strip()`: drop leading and trailing whitespace. -/
def pyStrip (s : String) : String :=
  String.mk (((s.data.dropWhile isPySpace).reverse.dropWhile isPySpace).reverse)

/-- Values that can appear in a parsed JSON object / spreadsheet record, as the
Python code sees them: `None`, strings, integers, lists and string-keyed
dicts.  Dicts are key-value lists in insertion order (JSON parsing produces
distinct keys). -/
inductive PyVal where
  | vNone : PyVal
  | vStr : String → PyVal
  | vInt : Int → PyVal
  | vList : List PyVal → PyVal
  | vDict : List (String × PyVal) → PyVal
deriving Repr

mutual

/-- Python `repr()` of a value, as used when `str()` renders a nested list or
dict.  Escaping of quotes and control characters inside nested strings is not
modelled; every value the development evaluates is a plain string. -/
def pyRepr : PyVal → String
  | .vNone => "None"
  | .vStr s => "'" ++ s ++ "'"
  | .vInt n => toString n
  | .vList xs => "[" ++ pyReprList xs ++ "]"
  | .vDict kvs => "\x7b" ++ pyReprDict kvs ++ "\x7d"

/-- Comma-joined `repr()` of list elements. -/
def pyReprList : List PyVal → String
  | [] => ""
  | [x] => pyRepr x
  | x :: xs => pyRepr x ++ ", " ++ pyReprList xs

/-- Comma-joined `'key': repr(value)` of dict entries. -/
def pyReprDict : List (String × PyVal) → String
  | [] => ""
  | [(k, v)] => "'" ++ k ++ "': " ++ pyRepr v
  | (k, v) :: kvs => "'" ++ k ++ "': " ++ pyRepr v ++ ", " ++ pyReprDict kvs

end

/-- Python `str()` of a value. -/
def pyStr : PyVal → String
  | .vNone => "None"
  | .vStr s => s
  | .vInt n => toString n
  | .vList xs => "[" ++ pyReprList xs ++ "]"
  | .vDict kvs => "\x7b" ++ pyReprDict kvs ++ "\x7d"

/-- A Python dict with string keys, in insertion order. -/
abbrev PyDict := List (String × PyVal)

/-- Python `d.get(key)` (default `None`): value of the first matching key. -/
def dictGet (d : PyDict) (k : String) : PyVal :=
  match d.find? (fun kv => kv.1 == k) with
  | some kv => kv.2
  | none => .vNone

/-- Python `d.get(key, default)`. -/
def dictGetD (d : PyDict) (k : String) (dflt : PyVal) : PyVal :=
  match d.find? (fun kv => kv.1 == k) with
  | some kv => kv.2
  | none => dflt

/-- `app.py` `normalize_report_value`: `None` and empty containers become the
empty string, dicts and lists collapse to space-joined `str()` of their
elements, everything else is `str()`-ed. -/
def normalize_report_value : PyVal → String
  | .vNone => ""
  | .vDict [] => ""
  | .vDict kvs => String.intercalate " " (kvs.map fun kv => pyStr kv.2)
  | .vList [] => ""
  | .vList xs => String.intercalate " " (xs.map pyStr)
  | v => pyStr v

/-- `app.py` `is_language_valid`: per-language script-presence /
script-absence tests, each a regex character-class search.  The helper
`has_char_in` is `bool(re.search("[class]", text))` for a union of
code-point ranges. -/
def has_char_in (text : String) (ranges : List (Nat × Nat)) : Bool :=
  text.data.any fun c => ranges.any fun r => r.1 ≤ c.toNat && c.toNat ≤ r.2

/-- Code points of the regex class `[一-鿿぀-ヿ]`. -/
def cjkKanaRanges : List (Nat × Nat) := [(0x4E00, 0x9FFF), (0x3040, 0x30FF)]

/-- Code points of the regex class `[぀-ヿ]` (Kana). -/
def kanaRanges : List (Nat × Nat) := [(0x3040, 0x30FF)]

/-- Code points of the regex class `[가-힯]` (Hangul). -/
def hangulRanges : List (Nat × Nat) := [(0xAC00, 0xD7AF)]

/-- Code points of the regex class `[A-Za-zÀ-ỹ]`. -/
def vietLatinRanges : List (Nat × Nat) := [(0x41, 0x5A), (0x61, 0x7A), (0xC0, 0x1EF9)]

/-- `app.py` `is_language_valid`. -/
def is_language_valid (text : String) (lang : String) : Bool :=
  if lang == "English" then !(has_char_in text cjkKanaRanges)
  else if lang == "繁體中文" then !(has_char_in text kanaRanges)
  else if lang == "日本語" then has_char_in text kanaRanges
  else if lang == "한국어" then has_char_in text hangulRanges
  else if lang == "Tiếng Việt" then has_char_in text vietLatinRanges
  else true

/-- `app.py` `count_output_length`: `len(re.findall(r"\S", text))`, the number
of non-whitespace characters; the language argument is ignored, exactly as in
the source. -/
def count_output_length (text : String) (_lang : String) : Nat :=
  (text.data.filter fun c => !isPySpace c).length

/-- `app.py` `min_section_length`: `max(20, int(word_limit * 0.03))`; the
float product rounds to the exact value, so this is `max 20 ⌊3w/100⌋`. -/
def min_section_length (word_limit : Nat) : Nat :=
  max 20 (3 * word_limit / 100)

/-- The five canonical section allocations produced by the length budgeter,
in the dict insertion order of the source. -/
structure LengthBudget where
  maintenance : Nat
  tracking : Nat
  nutrition : Nat
  supplements : Nat
  lifestyle : Nat
deriving Repr, DecidableEq

/-- `app.py` `build_length_budget`: the first four sections get
`max(1, int(word_limit * weight))` capped at the remaining budget (weights
0.2, 0.15, 0.2, 0.2, embedded as exact floors), the last section absorbs
`max(1, remaining)`. -/
def build_length_budget (word_limit : Nat) : LengthBudget :=
  let m := min (max 1 (word_limit / 5)) word_limit
  let r1 := word_limit - m
  let t := min (max 1 (3 * word_limit / 20)) r1
  let r2 := r1 - t
  let n := min (max 1 (word_limit / 5)) r2
  let r3 := r2 - n
  let s := min (max 1 (word_limit / 5)) r3
  let r4 := r3 - s
  { maintenance := m, tracking := t, nutrition := n, supplements := s,
    lifestyle := max 1 r4 }

/-- The required canonical keys checked by the validator, in source order. -/
def required_keys : List String :=
  ["maintenance", "tracking", "nutrition", "supplements", "lifestyle"]

/-- The combined text of `validate_report_output`:
`" ".join(normalize_report_value(v) for v in report.values())` — all values
of the candidate mapping, whatever their keys. -/
def combined_report_text (report : PyDict) : String :=
  String.intercalate " " (report.map fun kv => normalize_report_value kv.2)

/-- The per-section loop of `validate_report_output`: the first canonical key
whose trimmed value is empty or shorter than the section minimum produces a
failure verdict; `none` means every section passed. -/
def checkSections (report : PyDict) (lang : String) (sectionMin : Nat)
    (combinedLen : Nat) : List String → Option (Bool × String × Nat)
  | [] => none
  | k :: ks =>
    let sectionText := pyStrip (normalize_report_value (dictGet report k))
    if sectionText == "" then some (false, k ++ " 欄位內容為空", combinedLen)
    else if count_output_length sectionText lang < sectionMin then
      some (false, k ++ " 欄位內容過短", combinedLen)
    else checkSections report lang sectionMin combinedLen ks

/-- `app.py` `validate_report_output`: language check on the combined text,
then per-section non-emptiness and minimum length over the canonical keys,
then the total-length ceiling; returns `(valid, reason, measuredLength)`. -/
def validate_report_output (report : PyDict) (lang : String)
    (word_limit : Nat) : Bool × String × Nat :=
  let combined := combined_report_text report
  let combinedLen := count_output_length combined lang
  if !is_language_valid combined lang then (false, "語言不符合選擇", combinedLen)
  else
    match checkSections report lang (min_section_length word_limit) combinedLen
        required_keys with
    | some r => r
    | none =>
      if combinedLen > word_limit then
        (false, "超過字數限制（" ++ toString combinedLen ++ "/" ++
          toString word_limit ++ "）", combinedLen)
      else (true, "", combinedLen)

/-- The JSON-carving step `re.search(r'\{.*\}', text, re.DOTALL)`: the match,
when one exists, runs from the first open brace to the last close brace of
the whole text (leftmost match start, greedy body). -/
def extract_json_match (s : String) : Option String :=
  let cs := s.data
  match cs.reverse.findIdx? (fun c => c == '}') with
  | none => none
  | some rj =>
    let jl := cs.length - 1 - rj
    match cs.findIdx? (fun c => c == '{') with
    | none => none
    | some p => if p < jl then some (String.mk ((cs.drop p).take (jl - p + 1))) else none

/-- The retry notice appended to the rebuilt prompt on the first retry. -/
def retry_notice (failureReason : String) (lang : String) : String :=
  "\n\n# RETRY NOTICE\nThe previous response was invalid: " ++ failureReason ++
    ".\nPlease respond again strictly in " ++ lang ++ " and within the target limit.\n"

/-- The budget-relevant content of the prompt used by one generation attempt:
the generation target (`generation_limit`), the per-section minimum
(`section_min`), the section budget hint, and the retry notice if any. -/
structure AttemptInfo where
  limit : Nat
  sectionMin : Nat
  budget : LengthBudget
  notice : Option String
deriving Repr, DecidableEq

/-- Mutable state of the per-item retry loop in `app.py`: the tracked
generation limit, the prompt currently built, and the last failure reason and
measured output length. -/
structure LoopSt where
  generationLimit : Nat
  promptInfo : AttemptInfo
  failureReason : String
  outputLength : Nat

/-- The `attempt == 1` branch of the retry loop: shrink `generation_limit` by
`max(10, output_length - word_limit)` (floored at 1) when the previous
measured length exceeded the hard limit, then rebuild the budget hint, the
section minimum (from `word_limit`, as in the source) and the prompt,
appending the retry notice with the stored failure reason. -/
def rebuildAt1 (lang : String) (word_limit : Nat) (st : LoopSt) : LoopSt :=
  let gl :=
    if st.outputLength > word_limit then
      max 1 (st.generationLimit - max 10 (st.outputLength - word_limit))
    else st.generationLimit
  { generationLimit := gl,
    promptInfo :=
      { limit := gl, sectionMin := min_section_length word_limit,
        budget := build_length_budget gl,
        notice := some (retry_notice st.failureReason lang) },
    failureReason := st.failureReason, outputLength := st.outputLength }

/-- Outcome of one generation attempt: an uncaught exception (`thrown`, from
`json.loads` on a brace-matched but malformed substring), an accepted report
(`acc`, validation passed), or a failed attempt that lets the loop continue
(`cont`). -/
inductive StepRes where
  | thrown : String → StepRes
  | acc : PyDict → LoopSt → StepRes
  | cont : LoopSt → StepRes

/-- One attempt body of the retry loop, after the prompt rebuild: carve a JSON
substring from the raw response (`continue` with reason `未回傳有效 JSON` when
none), parse it (a parse error propagates), validate the candidate, and
either accept it or store the failure reason and measured length. -/
def attemptStep (parse : String → Except String PyDict) (lang : String)
    (word_limit : Nat) (raw : String) (st : LoopSt) : StepRes :=
  match extract_json_match raw with
  | none => .cont { st with failureReason := "未回傳有效 JSON" }
  | some sub =>
    match parse sub with
    | .error e => .thrown e
    | .ok cand =>
      let v := validate_report_output cand lang word_limit
      let st' := { st with failureReason := v.2.1, outputLength := v.2.2 }
      if v.1 then .acc cand st' else .cont st'

/-- Result of one item run: the prompt data of every executed attempt, and
either the propagated exception or the final `(report, failure_reason)`
pair of the loop variables. -/
structure ItemRunResult where
  trace : List AttemptInfo
  outcome : Except String (Option PyDict × String)

/-- The `for attempt in range(3)` loop of `app.py`: at attempt 1 the prompt is
rebuilt (and possibly shrunk); every attempt then generates, parses and
validates.  `responses` is the oracle giving the raw text the generation
service returned for each attempt index. -/
def runAttempts (parse : String → Except String PyDict) (lang : String)
    (word_limit : Nat) (responses : Nat → String) :
    List Nat → LoopSt → List AttemptInfo → ItemRunResult
  | [], st, tr => { trace := tr, outcome := .ok (none, st.failureReason) }
  | a :: rest, st, tr =>
    let st1 := if a == 1 then rebuildAt1 lang word_limit st else st
    let tr1 := tr ++ [st1.promptInfo]
    match attemptStep parse lang word_limit (responses a) st1 with
    | .thrown e => { trace := tr1, outcome := .error e }
    | .acc cand st2 => { trace := tr1, outcome := .ok (some cand, st2.failureReason) }
    | .cont st2 => runAttempts parse lang word_limit responses rest st2 tr1

/-- One item of the generation loop: `generation_limit = max(1, word_limit)`,
initial budget hint and section minimum, initial prompt without retry notice,
then three attempts. -/
def runItem (parse : String → Except String PyDict) (lang : String)
    (word_limit : Nat) (responses : Nat → String) : ItemRunResult :=
  let gl0 := max 1 word_limit
  runAttempts parse lang word_limit responses [0, 1, 2]
    { generationLimit := gl0,
      promptInfo :=
        { limit := gl0, sectionMin := min_section_length word_limit,
          budget := build_length_budget gl0, notice := none },
      failureReason := "", outputLength := 0 } []

/-- The batch loop over flagged items, inside the one top-level
`try/except`: each item runs the retry loop; an uncaught exception aborts the
whole batch with that single error and nothing is salvaged, otherwise the
per-item results are collected in order. -/
def runBatchAux (parse : String → Except String PyDict) (lang : String)
    (word_limit : Nat) (responsesFor : Nat → Nat → String) :
    Nat → List String → Except String (List (String × Option PyDict × String))
  | _, [] => .ok []
  | idx, it :: rest =>
    match (runItem parse lang word_limit (responsesFor idx)).outcome with
    | .error e => .error e
    | .ok (rep, fr) =>
      match runBatchAux parse lang word_limit responsesFor (idx + 1) rest with
      | .error e => .error e
      | .ok tl => .ok ((it, rep, fr) :: tl)

/-- The batch driver applied to the flagged-item list, starting at index 0. -/
def runBatch (parse : String → Except String PyDict) (lang : String)
    (word_limit : Nat) (items : List String)
    (responsesFor : Nat → Nat → String) :
    Except String (List (String × Option PyDict × String)) :=
  runBatchAux parse lang word_limit responsesFor 0 items

/-- `sheet_utils.py` `find_row_by_application_id`: empty identifier returns
`None`; otherwise the first record whose stripped `申請單編號` column equals the
stripped identifier is returned, and a missing match RAISES `LookupError`
(modelled as `.error`), despite the docstring promising `None`. -/
def find_row_by_application_id (records : List PyDict)
    (application_id : String) : Except String (Option PyDict) :=
  if application_id == "" then .ok none
  else
    let aid := pyStrip application_id
    match records.find? (fun r =>
        pyStrip (pyStr (dictGetD r "申請單編號" (.vStr ""))) == aid) with
    | some r => .ok (some r)
    | none => .error ("找不到申請單編號：" ++ aid)

/-- A scored spreadsheet item: name and prevention score.  Scores are floats
in the source; the rationals embed every value the spreadsheet can carry
exactly at the magnitudes involved. -/
structure ScoredItem where
  name : String
  score : ℚ
deriving Repr, DecidableEq

/-- The tier-selection tail of `extract_data_from_upload`: if any item scores
below the low threshold, those items (in scan order) are returned under the
`極低分 (<30)` label; otherwise the items below the standard threshold are
returned under the `標準篩選 (<37)` label. -/
def tier_selection (all_scored_items : List ScoredItem)
    (threshold_low threshold_std : ℚ) : List String × String :=
  let tier1 := (all_scored_items.filter fun i => i.score < threshold_low).map
    fun i => i.name
  if tier1 ≠ [] then (tier1, "極低分 (<30)")
  else
    ((all_scored_items.filter fun i => i.score < threshold_std).map
      fun i => i.name, "標準篩選 (<37)")

/-- A string of `n` copies of the letter a. -/
def aStr (n : Nat) : String := String.mk (List.replicate n 'a')

/-- A candidate mapping under the five canonical keys, 30 letters each. -/
def canonReport : PyDict :=
  [("maintenance", .vStr (aStr 30)), ("tracking", .vStr (aStr 30)),
   ("nutrition", .vStr (aStr 30)), ("supplements", .vStr (aStr 30)),
   ("lifestyle", .vStr (aStr 30))]

/-- The same values as `canonReport` under the Vietnamese alias keys of the
spec scenario. -/
def aliasReport : PyDict :=
  [("duy_tri", .vStr (aStr 30)), ("theo_doi", .vStr (aStr 30)),
   ("dinh_duong", .vStr (aStr 30)), ("bo_sung", .vStr (aStr 30)),
   ("loi_song", .vStr (aStr 30))]

/-- `canonReport` plus one extra, non-canonical key holding 700 letters. -/
def extraKeyReport : PyDict := canonReport ++ [("note", .vStr (aStr 700))]

/-- A canonical candidate measuring 950 non-whitespace characters. -/
def report950 : PyDict :=
  [("maintenance", .vStr (aStr 190)), ("tracking", .vStr (aStr 190)),
   ("nutrition", .vStr (aStr 190)), ("supplements", .vStr (aStr 190)),
   ("lifestyle", .vStr (aStr 190))]

/-- A canonical candidate whose sections each contain CJK characters next to
plain ASCII Latin letters. -/
def vietMixReport : PyDict :=
  [("maintenance", .vStr (aStr 30 ++ "漢")), ("tracking", .vStr (aStr 30 ++ "漢")),
   ("nutrition", .vStr (aStr 30 ++ "漢")), ("supplements", .vStr (aStr 30 ++ "漢")),
   ("lifestyle", .vStr (aStr 30 ++ "漢"))]

/-- An oracle parse function returning `report950` for every substring. -/
def parse950 (_s : String) : Except String PyDict := .ok report950

/-- A response oracle whose every attempt returns a braced blob. -/
def resp950 (_a : Nat) : String := "\x7bj\x7d"

/-- The item run in which every attempt parses to the 950-character report
against hard budget 800: attempt 0 overshoots by 150, the first retry shrinks
the target to 650, and the second retry reuses the same prompt. -/
def overshootRun : ItemRunResult := runItem parse950 "繁體中文" 800 resp950

/-- A parse oracle that always fails, standing for `json.loads` raising on a
malformed brace-matched substring. -/
def parseFail (_s : String) : Except String PyDict :=
  .error "Expecting value: line 1 column 1 (char 0)"

/-- A batch response oracle: every item and attempt returns a braced blob. -/
def respBraced (_item _attempt : Nat) : String := "\x7boops\x7d"

/-- A per-item response oracle with no brace pair in any response. -/
def respNoJson (_a : Nat) : String := "no json here"

/-- A single-key candidate whose value is 12 ASCII letters (used to exercise
the language check of the validator on a non-canonical mapping). -/
def asciiOnlyReport : PyDict := [("maintenance", .vStr (aStr 12))]

theorem checkSections_some {report : PyDict} {lang : String} {m len : Nat}
    {ks : List String} {r : Bool × String × Nat}
    (h : checkSections report lang m len ks = some r) :
    r.1 = false ∧ r.2.2 = len := by
  induction ks with
  | nil => simp [checkSections] at h
  | cons k ks ih =>
    rw [checkSections] at h
    split_ifs at h with h1 h2
    · cases Option.some.inj h; exact ⟨rfl, rfl⟩
    · cases Option.some.inj h; exact ⟨rfl, rfl⟩
    · exact ih h

theorem runAttempts_trace_extend (parse : String → Except String PyDict)
    (lang : String) (wl : Nat) (resp : Nat → String) (as : List Nat)
    (st : LoopSt) (tr : List AttemptInfo) :
    ∃ suf, (runAttempts parse lang wl resp as st tr).trace = tr ++ suf := by
  induction as generalizing st tr with
  | nil => exact ⟨[], by simp [runAttempts]⟩
  | cons a rest ih =>
    rw [runAttempts]
    rcases h : attemptStep parse lang wl (resp a)
        (if a == 1 then rebuildAt1 lang wl st else st) with e | ⟨c, st2⟩ | st2
    · exact ⟨_, rfl⟩
    · exact ⟨_, rfl⟩
    · rcases ih st2 (tr ++ [(if a == 1 then rebuildAt1 lang wl st else st).promptInfo]) with
        ⟨suf, hsuf⟩
      refine ⟨[(if a == 1 then rebuildAt1 lang wl st else st).promptInfo] ++ suf, ?_⟩
      dsimp only
      rw [hsuf, List.append_assoc]

/-- C7: for every total budget `W ≥ 5` the five allocations of
`build_length_budget` are each at least 1 and sum to exactly `W`. -/
theorem spec_C7_budget_sum (w : Nat) (h : 5 ≤ w) :
    1 ≤ (build_length_budget w).maintenance ∧
    1 ≤ (build_length_budget w).tracking ∧
    1 ≤ (build_length_budget w).nutrition ∧
    1 ≤ (build_length_budget w).supplements ∧
    1 ≤ (build_length_budget w).lifestyle ∧
    (build_length_budget w).maintenance + (build_length_budget w).tracking +
      (build_length_budget w).nutrition + (build_length_budget w).supplements +
      (build_length_budget w).lifestyle = w := by
  unfold build_length_budget
  dsimp only
  omega

theorem spec_C7_budget_sum_witness :
    5 ≤ 800 ∧
    (1 ≤ (build_length_budget 800).maintenance ∧
      1 ≤ (build_length_budget 800).tracking ∧
      1 ≤ (build_length_budget 800).nutrition ∧
      1 ≤ (build_length_budget 800).supplements ∧
      1 ≤ (build_length_budget 800).lifestyle ∧
      (build_length_budget 800).maintenance + (build_length_budget 800).tracking +
        (build_length_budget 800).nutrition + (build_length_budget 800).supplements +
        (build_length_budget 800).lifestyle = 800) :=
  ⟨by decide, spec_C7_budget_sum 800 (by decide)⟩

/-- C10: the Traditional Chinese check fails exactly when the text contains a
code point in the Kana block U+3040 to U+30FF; English, Korean and Vietnamese
sample texts without Kana all pass. -/
theorem spec_C10_zh_rejects_only_kana (text : String) :
    (is_language_valid text "繁體中文" = false ↔
      ∃ c ∈ text.data, 0x3040 ≤ c.toNat ∧ c.toNat ≤ 0x30FF) ∧
    is_language_valid ("Hello world") "繁體中文" = true ∧
    is_language_valid ("안녕하세요") "繁體中文" = true ∧
    is_language_valid ("Xin chào") "繁體中文" = true := by
  refine ⟨?_, by decide, by decide, by decide⟩
  unfold is_language_valid
  rw [if_neg (by decide), if_pos (by decide)]
  simp [has_char_in, kanaRanges]

/-- C3: with a non-empty application identifier and no matching record,
`find_row_by_application_id` does not return a not-found signal as its
docstring promises; it raises `LookupError`, which the caller does not catch,
so the whole run aborts. -/
theorem spec_C3_lookup_raises :
    find_row_by_application_id [[("申請單編號", PyVal.vStr ("B999"))]] "A123"
      = .error ("找不到申請單編號：A123") ∧
    find_row_by_application_id [] "A123" = .error ("找不到申請單編號：A123") :=
  ⟨rfl, rfl⟩

/-- C9 counterexample: with no score below the standard threshold the source
still returns the standard tier label, not an empty one, so the claim that
both the item list and the tier label are empty is false. -/
theorem spec_C9_counterexample :
    tier_selection [⟨"item_40", 40⟩, ⟨"item_50", 50⟩] 30 37
      = ([], "標準篩選 (<37)") ∧ ("標準篩選 (<37)" : String) ≠ "" :=
  ⟨by decide, by decide⟩

/-- C9 amended: exactly the items below the low threshold (in scan order) are
returned under the severe label when any such item exists, else exactly the
items below the standard threshold under the standard label; when no item is
below the standard threshold the item list is empty but the tier label is
still the standard label. -/
theorem spec_C9_tier_selection_amended (items : List ScoredItem) :
    tier_selection items 30 37 =
      (if ∃ i ∈ items, i.score < 30 then
        ((items.filter fun i => i.score < 30).map fun i => i.name, "極低分 (<30)")
      else
        ((items.filter fun i => i.score < 37).map fun i => i.name,
          "標準篩選 (<37)")) ∧
    tier_selection [⟨"item_25", 25⟩, ⟨"item_40", 40⟩, ⟨"item_50", 50⟩] 30 37
      = (["item_25"], "極低分 (<30)") ∧
    tier_selection [⟨"item_35", 35⟩, ⟨"item_36", 36⟩, ⟨"item_50", 50⟩] 30 37
      = (["item_35", "item_36"], "標準篩選 (<37)") := by
  refine ⟨?_, by decide, by decide⟩
  unfold tier_selection
  by_cases h : ∃ i ∈ items, i.score < 30
  · rw [if_pos h, if_pos]
    rcases h with ⟨i, hi, hlt⟩
    have hmem : i ∈ items.filter fun i => i.score < 30 :=
      List.mem_filter.2 ⟨hi, by simpa using hlt⟩
    exact fun hnil => (List.ne_nil_of_mem (List.mem_map_of_mem _ hmem)) hnil
  · rw [if_neg h, if_neg]
    intro hne
    apply h
    have : items.filter (fun i => i.score < 30) ≠ [] := by
      intro hnil
      exact hne (by rw [hnil]; rfl)
    rcases List.exists_mem_of_ne_nil _ this with ⟨i, hi⟩
    rcases List.mem_filter.1 hi with ⟨hmem, hlt⟩
    exact ⟨i, hmem, by simpa using hlt⟩

/-- C8 counterexample: a text containing CJK characters passes the Vietnamese
language check because the check only looks for one Latin or
Latin-with-diacritic character, and a candidate mixing CJK into every section
passes full validation rather than failing with a language mismatch. -/
theorem spec_C8_counterexample :
    is_language_valid ("a漢字") "Tiếng Việt" = true ∧
    has_char_in ("a漢字") cjkKanaRanges = true ∧
    validate_report_output vietMixReport "Tiếng Việt" 800 = (true, "", 155) :=
  ⟨by decide, by decide, by rfl⟩

/-- C8 amended: the Vietnamese language check accepts a text exactly when it
contains at least one character of the class `[A-Za-zÀ-ỹ]` (plain ASCII
letters or U+00C0 to U+1EF9); it neither requires diacritics nor rejects
CJK, Kana or Hangul code points — appending a CJK character never changes
its verdict, and a bare ASCII text passes. -/
theorem spec_C8_viet_check_amended (text : String) :
    (is_language_valid text "Tiếng Việt" = true ↔
      ∃ c ∈ text.data, (65 ≤ c.toNat ∧ c.toNat ≤ 90) ∨
        (97 ≤ c.toNat ∧ c.toNat ≤ 122) ∨ (0xC0 ≤ c.toNat ∧ c.toNat ≤ 0x1EF9)) ∧
    is_language_valid (text ++ "漢") "Tiếng Việt"
      = is_language_valid text "Tiếng Việt" ∧
    is_language_valid ("abc") "Tiếng Việt" = true := by
  refine ⟨?_, ?_, by decide⟩
  · unfold is_language_valid
    rw [if_neg (by decide), if_neg (by decide), if_neg (by decide),
      if_neg (by decide), if_pos (by decide)]
    simp [has_char_in, vietLatinRanges]
  · unfold is_language_valid
    rw [if_neg (by decide), if_neg (by decide), if_neg (by decide),
      if_neg (by decide), if_pos (by decide), if_neg (by decide),
      if_neg (by decide), if_neg (by decide), if_neg (by decide),
      if_pos (by decide)]
    unfold has_char_in
    rw [String.data_append, List.any_append]
    have hk : ((("漢" : String)).data.any fun c =>
        vietLatinRanges.any fun r => r.1 ≤ c.toNat && c.toNat ≤ r.2) = false := by
      decide
    rw [hk, Bool.or_false]

/-- C2 counterexample: the validator performs no alias normalization, so the
alias-keyed mapping of the spec scenario fails validation with an empty
maintenance section while the same values under canonical keys pass. -/
theorem spec_C2_counterexample :
    validate_report_output aliasReport "繁體中文" 800
      = (false, "maintenance 欄位內容為空", 150) ∧
    validate_report_output canonReport "繁體中文" 800 = (true, "", 150) :=
  ⟨rfl, rfl⟩

/-- C2 amended: no key normalization happens before validation; the validator
consults only the exact canonical keys, so any candidate mapping without a
`maintenance` key that passes the language check fails with
`maintenance 欄位內容為空` (its values still feed the combined text), rather
than validating identically to a canonical mapping. -/
theorem spec_C2_no_alias_normalization (report : PyDict) (lang : String)
    (wl : Nat) (hk : (report.find? fun kv => kv.1 == "maintenance") = none)
    (hl : is_language_valid (combined_report_text report) lang = true) :
    validate_report_output report lang wl =
      (false, "maintenance 欄位內容為空",
        count_output_length (combined_report_text report) lang) := by
  simp only [validate_report_output]
  rw [hl]
  simp only [Bool.not_true]
  rw [if_neg (by decide)]
  have h2 : checkSections report lang (min_section_length wl)
      (count_output_length (combined_report_text report) lang) required_keys
      = some (false, "maintenance 欄位內容為空",
          count_output_length (combined_report_text report) lang) := by
    show checkSections report lang (min_section_length wl)
      (count_output_length (combined_report_text report) lang)
      ("maintenance" :: ["tracking", "nutrition", "supplements", "lifestyle"]) = _
    rw [checkSections]
    unfold dictGet
    rw [hk]
    rfl
  rw [h2]

theorem spec_C2_witness :
    (aliasReport.find? fun kv => kv.1 == "maintenance") = none ∧
    is_language_valid (combined_report_text aliasReport) "繁體中文" = true ∧
    validate_report_output aliasReport "繁體中文" 800
      = (false, "maintenance 欄位內容為空",
          count_output_length (combined_report_text aliasReport) "繁體中文") :=
  ⟨rfl, rfl, spec_C2_no_alias_normalization aliasReport "繁體中文" 800 rfl rfl⟩

/-- C6 counterexample: the validator concatenates the values of every key in
the candidate mapping, so an extra non-canonical key whose value pushes the
blob over the ceiling makes validation fail, although the five canonical
sections alone measure 150 of the 800 allowed characters. -/
theorem spec_C6_counterexample :
    validate_report_output extraKeyReport "繁體中文" 800
      = (false, "超過字數限制（850/800）", 850) ∧
    validate_report_output canonReport "繁體中文" 800 = (true, "", 150) ∧
    count_output_length (combined_report_text canonReport) "繁體中文" = 150 :=
  ⟨rfl, rfl, rfl⟩

/-- C6 amended: the language check, measured length and total ceiling of the
validator are computed over the concatenation of ALL values of the candidate
mapping (extra keys included), with length the count of non-whitespace
characters uniformly for every target language. -/
theorem spec_C6_all_values_counted (report : PyDict) (lang : String)
    (wl : Nat) :
    (validate_report_output report lang wl).2.2
      = count_output_length (combined_report_text report) lang ∧
    (is_language_valid (combined_report_text report) lang = false →
      validate_report_output report lang wl =
        (false, "語言不符合選擇",
          count_output_length (combined_report_text report) lang)) ∧
    (is_language_valid (combined_report_text report) lang = true →
      wl < count_output_length (combined_report_text report) lang →
      (validate_report_output report lang wl).1 = false) := by
  refine ⟨?_, ?_, ?_⟩
  · simp only [validate_report_output]
    cases hb : is_language_valid (combined_report_text report) lang
    · rfl
    · simp only [Bool.not_true]
      rw [if_neg (by decide)]
      rcases hcs : checkSections report lang (min_section_length wl)
          (count_output_length (combined_report_text report) lang)
          required_keys with _ | r
      · dsimp only
        split_ifs <;> rfl
      · exact (checkSections_some hcs).2
  · intro hb
    simp only [validate_report_output]
    rw [hb]
    rfl
  · intro hb hlen
    simp only [validate_report_output]
    rw [hb]
    simp only [Bool.not_true]
    rw [if_neg (by decide)]
    rcases hcs : checkSections report lang (min_section_length wl)
        (count_output_length (combined_report_text report) lang)
        required_keys with _ | r
    · dsimp only
      rw [if_pos hlen]
    · exact (checkSections_some hcs).1

theorem spec_C6_witness :
    validate_report_output asciiOnlyReport "日本語" 10
      = (false, "語言不符合選擇",
          count_output_length (combined_report_text asciiOnlyReport) "日本語") ∧
    (validate_report_output canonReport "繁體中文" 10).1 = false :=
  ⟨(spec_C6_all_values_counted asciiOnlyReport "日本語" 10).2.1 rfl,
    (spec_C6_all_values_counted canonReport "繁體中文" 10).2.2 rfl (by decide)⟩

theorem runAttempts_one_norebuild (parse : String → Except String PyDict)
    (lang : String) (wl : Nat) (resp : Nat → String) (a : Nat) (st : LoopSt)
    (tr : List AttemptInfo) (ha : (a == 1) = false) :
    (runAttempts parse lang wl resp [a] st tr).trace = tr ++ [st.promptInfo] := by
  simp only [runAttempts, ha, Bool.false_eq_true, if_false]
  rcases h : attemptStep parse lang wl (resp a) st with e | ⟨c, st2⟩ | st2
  · rfl
  · rfl
  · simp only [runAttempts]

/-- C4: an attempt whose raw response contains no brace-delimited substring
records the failure reason `未回傳有效 JSON` and the loop moves on to the next
attempt (all three attempts execute and the reason survives the loop); a
brace-delimited substring that fails to parse propagates as the single
top-level error, aborting the whole batch with no further items processed and
no partial results. -/
theorem spec_C4_json_parse_paths (parse : String → Except String PyDict)
    (lang : String) (wl : Nat) (respA : Nat → String)
    (respB : Nat → Nat → String) (it : String) (items : List String)
    (s e : String)
    (hA : ∀ a, a < 3 → extract_json_match (respA a) = none)
    (hB : extract_json_match (respB 0 0) = some s)
    (hp : parse s = .error e) :
    (runItem parse lang wl respA).outcome = .ok (none, "未回傳有效 JSON") ∧
    (runItem parse lang wl respA).trace.length = 3 ∧
    runBatch parse lang wl (it :: items) respB = .error e := by
  have e0 := hA 0 (by norm_num)
  have e1 := hA 1 (by norm_num)
  have e2 := hA 2 (by norm_num)
  refine ⟨?_, ?_, ?_⟩
  · simp [runItem, runAttempts, attemptStep, e0, e1, e2]
  · simp [runItem, runAttempts, attemptStep, e0, e1, e2]
  · simp [runBatch, runBatchAux, runItem, runAttempts, attemptStep, hB, hp]

theorem spec_C4_witness :
    (runItem parseFail "English" 800 respNoJson).outcome
      = .ok (none, "未回傳有效 JSON") ∧
    (runItem parseFail "English" 800 respNoJson).trace.length = 3 ∧
    runBatch parseFail "English" 800 ["item1", "item2"] respBraced
      = .error "Expecting value: line 1 column 1 (char 0)" :=
  spec_C4_json_parse_paths parseFail "English" 800 respNoJson respBraced
    "item1" ["item2"] "\x7boops\x7d" "Expecting value: line 1 column 1 (char 0)"
    (fun _ _ => rfl) rfl rfl

theorem attemptStep_cont_of {parse : String → Except String PyDict}
    {lang : String} {wl : Nat} {raw s : String} {r : PyDict} {f : String}
    {L : Nat} (st : LoopSt) (he : extract_json_match raw = some s)
    (hp : parse s = .ok r)
    (hv : validate_report_output r lang wl = (false, f, L)) :
    attemptStep parse lang wl raw st
      = .cont { st with failureReason := f, outputLength := L } := by
  simp only [attemptStep, he, hp, hv, Bool.false_eq_true, if_false]

theorem runAttempts_cons_cont (a : Nat) {parse : String → Except String PyDict}
    {lang : String} {wl : Nat} {resp : Nat → String}
    {rest : List Nat} {st st2 : LoopSt} {tr : List AttemptInfo}
    (ha : (a == 1) = false)
    (hstep : attemptStep parse lang wl (resp a) st = .cont st2) :
    runAttempts parse lang wl resp (a :: rest) st tr
      = runAttempts parse lang wl resp rest st2 (tr ++ [st.promptInfo]) := by
  simp only [runAttempts, ha, Bool.false_eq_true, if_false, hstep]

theorem runAttempts_cons_one_cont {parse : String → Except String PyDict}
    {lang : String} {wl : Nat} {resp : Nat → String} {rest : List Nat}
    {st st2 : LoopSt} {tr : List AttemptInfo}
    (hstep : attemptStep parse lang wl (resp 1) (rebuildAt1 lang wl st)
      = .cont st2) :
    runAttempts parse lang wl resp (1 :: rest) st tr
      = runAttempts parse lang wl resp rest st2
          (tr ++ [(rebuildAt1 lang wl st).promptInfo]) := by
  simp only [runAttempts, beq_self_eq_true, if_true, hstep]

theorem rebuildAt1_shrink {lang : String} {wl g L0 : Nat} {pi : AttemptInfo}
    {f0 : String} (hov : wl < L0) :
    rebuildAt1 lang wl
      { generationLimit := g, promptInfo := pi, failureReason := f0,
        outputLength := L0 }
      = { generationLimit := max 1 (g - max 10 (L0 - wl)),
          promptInfo :=
            { limit := max 1 (g - max 10 (L0 - wl)),
              sectionMin := min_section_length wl,
              budget := build_length_budget (max 1 (g - max 10 (L0 - wl))),
              notice := some (retry_notice f0 lang) },
          failureReason := f0, outputLength := L0 } := by
  simp only [rebuildAt1, gt_iff_lt, hov, if_true]

theorem runAttempts_cons_one_trace_prefix
    (parse : String → Except String PyDict)
    (lang : String) (wl : Nat) (resp : Nat → String) (rest : List Nat)
    (st : LoopSt) (tr : List AttemptInfo) :
    ∃ suf, (runAttempts parse lang wl resp (1 :: rest) st tr).trace
      = tr ++ [(rebuildAt1 lang wl st).promptInfo] ++ suf := by
  simp only [runAttempts, beq_self_eq_true, if_true]
  rcases h : attemptStep parse lang wl (resp 1) (rebuildAt1 lang wl st)
    with e | ⟨c, st2⟩ | st2
  · exact ⟨[], by simp⟩
  · exact ⟨[], by simp⟩
  · rcases runAttempts_trace_extend parse lang wl resp rest st2
      (tr ++ [(rebuildAt1 lang wl st).promptInfo]) with ⟨suf, hsuf⟩
    exact ⟨suf, by simp [hsuf]⟩

/-- C1 counterexample: in the run where every attempt measures 950 against
hard budget 800, attempt 1 overshoots by 150, yet attempt 2 keeps the same
generation target 650 (the loop rebuilds only when `attempt == 1`), so the
target is not reduced to at most 650 - max(10, 150) = 500 as the claim
requires of every retry. -/
theorem spec_C1_counterexample :
    overshootRun.trace.map AttemptInfo.limit = [800, 650, 650] ∧
    overshootRun.outcome = .ok (none, "超過字數限制（950/800）") ∧
    validate_report_output report950 "繁體中文" 800
      = (false, "超過字數限制（950/800）", 950) ∧
    ¬ (650 ≤ 650 - max 10 (950 - 800)) :=
  ⟨rfl, rfl, rfl, by decide⟩

/-- C1 amended: only the first retry (attempt index 1) shrinks and rebuilds;
when attempt 0 measures `L0` over the hard budget `wl` and attempt 1 also
fails, attempt 1's prompt carries target
`max 1 (max 1 wl - max 10 (L0 - wl))` and a retry notice with attempt 0's
failure reason, and attempt 2 reuses attempt 1's prompt unchanged (same
target, same notice) with no further shrink. -/
theorem spec_C1_rebuild_only_first_retry
    (parse : String → Except String PyDict)
    (lang : String) (wl : Nat) (resp : Nat → String) (s0 s1 : String)
    (r0 r1 : PyDict) (f0 f1 : String) (L0 L1 : Nat)
    (he0 : extract_json_match (resp 0) = some s0) (hp0 : parse s0 = .ok r0)
    (hv0 : validate_report_output r0 lang wl = (false, f0, L0))
    (hov : wl < L0)
    (he1 : extract_json_match (resp 1) = some s1) (hp1 : parse s1 = .ok r1)
    (hv1 : validate_report_output r1 lang wl = (false, f1, L1)) :
    (runItem parse lang wl resp).trace =
      [{ limit := max 1 wl, sectionMin := min_section_length wl,
         budget := build_length_budget (max 1 wl), notice := none },
       { limit := max 1 (max 1 wl - max 10 (L0 - wl)),
         sectionMin := min_section_length wl,
         budget := build_length_budget (max 1 (max 1 wl - max 10 (L0 - wl))),
         notice := some (retry_notice f0 lang) },
       { limit := max 1 (max 1 wl - max 10 (L0 - wl)),
         sectionMin := min_section_length wl,
         budget := build_length_budget (max 1 (max 1 wl - max 10 (L0 - wl))),
         notice := some (retry_notice f0 lang) }] := by
  unfold runItem
  rw [runAttempts_cons_cont 0 rfl (attemptStep_cont_of _ he0 hp0 hv0)]
  rw [runAttempts_cons_one_cont (attemptStep_cont_of _ he1 hp1 hv1)]
  rw [runAttempts_one_norebuild _ _ _ _ 2 _ _ rfl]
  rw [rebuildAt1_shrink hov]
  simp

theorem spec_C1_witness :
    (runItem parse950 "繁體中文" 800 resp950).trace =
      [{ limit := max 1 800, sectionMin := min_section_length 800,
         budget := build_length_budget (max 1 800), notice := none },
       { limit := max 1 (max 1 800 - max 10 (950 - 800)),
         sectionMin := min_section_length 800,
         budget := build_length_budget (max 1 (max 1 800 - max 10 (950 - 800))),
         notice := some (retry_notice "超過字數限制（950/800）" "繁體中文") },
       { limit := max 1 (max 1 800 - max 10 (950 - 800)),
         sectionMin := min_section_length 800,
         budget := build_length_budget (max 1 (max 1 800 - max 10 (950 - 800))),
         notice := some (retry_notice "超過字數限制（950/800）" "繁體中文") }] :=
  spec_C1_rebuild_only_first_retry parse950 "繁體中文" 800 resp950
    "\x7bj\x7d" "\x7bj\x7d" report950 report950
    "超過字數限制（950/800）" "超過字數限制（950/800）" 950 950
    rfl rfl rfl (by decide) rfl rfl rfl

/-- C5 counterexample: in the overshoot run the first retry shrinks the
generation limit from 800 to 650, but the section minimum in the rebuilt
prompt stays `min_section_length 800 = 24`, not
`max(20, floor(650 * 0.03)) = 20` as the claim requires. -/
theorem spec_C5_counterexample :
    overshootRun.trace.map AttemptInfo.sectionMin = [24, 24, 24] ∧
    overshootRun.trace.map AttemptInfo.limit = [800, 650, 650] ∧
    min_section_length 800 = 24 ∧
    max 20 (3 * 650 / 100) = 20 ∧ (24 : Nat) ≠ 20 :=
  ⟨rfl, rfl, by decide, by decide, by decide⟩

/-- C5 amended: after the first-retry shrink the rebuilt prompt recomputes
the section budget from the new (shrunk) generation limit, but the minimum
section length from the UNCHANGED hard budget `word_limit`:
it equals `max 20 (3 * wl / 100)`, not the same formula over the new
limit. -/
theorem spec_C5_section_min_from_word_limit
    (parse : String → Except String PyDict)
    (lang : String) (wl : Nat) (resp : Nat → String) (s0 : String)
    (r0 : PyDict) (f0 : String) (L0 : Nat)
    (he0 : extract_json_match (resp 0) = some s0) (hp0 : parse s0 = .ok r0)
    (hv0 : validate_report_output r0 lang wl = (false, f0, L0))
    (hov : wl < L0) :
    (runItem parse lang wl resp).trace.get? 1 =
      some ({ limit := max 1 (max 1 wl - max 10 (L0 - wl)),
              sectionMin := min_section_length wl,
              budget := build_length_budget (max 1 (max 1 wl - max 10 (L0 - wl))),
              notice := some (retry_notice f0 lang) } : AttemptInfo) ∧
    min_section_length wl = max 20 (3 * wl / 100) := by
  refine ⟨?_, rfl⟩
  unfold runItem
  rw [runAttempts_cons_cont 0 rfl (attemptStep_cont_of _ he0 hp0 hv0)]
  dsimp only
  rcases runAttempts_cons_one_trace_prefix parse lang wl resp [2]
    { generationLimit := max 1 wl,
      promptInfo := { limit := max 1 wl, sectionMin := min_section_length wl,
                      budget := build_length_budget (max 1 wl), notice := none },
      failureReason := f0, outputLength := L0 }
    ([] ++ [{ limit := max 1 wl, sectionMin := min_section_length wl,
              budget := build_length_budget (max 1 wl), notice := none }])
    with ⟨suf, hsuf⟩
  rw [hsuf, rebuildAt1_shrink hov]
  simp

theorem spec_C5_witness :
    (runItem parse950 "繁體中文" 800 resp950).trace.get? 1 =
      some ({ limit := max 1 (max 1 800 - max 10 (950 - 800)),
              sectionMin := min_section_length 800,
              budget := build_length_budget (max 1 (max 1 800 - max 10 (950 - 800))),
              notice := some (retry_notice "超過字數限制（950/800）" "繁體中文") }
        : AttemptInfo) ∧
    min_section_length 800 = max 20 (3 * 800 / 100) :=
  spec_C5_section_min_from_word_limit parse950 "繁體中文" 800 resp950
    "\x7bj\x7d" report950 "超過字數限制（950/800）" 950 rfl rfl rfl (by decide)
